import Mathlib

/-!
Verification development for the code-migration demo: a shallow embedding of
the coordinator server (`server/coordinator.ts`), the code registry
(`lib/registry/code-registry.ts`), the recovery manager
(`lib/recovery/task-recovery-manager.ts`), the shared utilities
(`lib/utils`), the configuration constants (`lib/constants`) and the
behaviour of the built-in counting task template.

Modelling conventions:
  * JavaScript `Map` objects are modelled as association lists together with
    `mapGet` / `mapSet`, which mirror `Map.get` / `Map.set` (first binding
    wins on lookup, `set` replaces in place or appends).
  * `Date` values are epoch milliseconds (`Nat`).
  * Socket emissions and promise resolutions are recorded as an explicit
    list of `Effect`s returned by each handler.
  * Floating-point quantities that the code compares (`cpuUsage`,
    `progress`) are modelled as rationals.
  * The asynchronous `handleMigrationRequest` is split at its suspension
    point (`await waitForCheckpoint`): `handleMigrationRequestPrepare` is
    the synchronous prefix (phases PREPARE and the waiter registration) and
    `checkpointWaitTimeout` is the timer body of `waitForCheckpoint`.
-/

set_option maxRecDepth 40000

namespace Migration

/-! ## Association-list model of the JavaScript `Map` -/

/-- Lookup in a JS `Map` modelled as an association list (`Map.get`). -/
def mapGet {α : Type} (m : List (String × α)) (k : String) : Option α :=
  match m with
  | [] => none
  | p :: ps => if p.1 = k then some p.2 else mapGet ps k

/-- Update in a JS `Map` modelled as an association list (`Map.set`):
replaces the first binding of `k`, or appends a new binding. -/
def mapSet {α : Type} (m : List (String × α)) (k : String) (v : α) :
    List (String × α) :=
  match m with
  | [] => [(k, v)]
  | p :: ps => if p.1 = k then (k, v) :: ps else p :: mapSet ps k v

/-! ## `generateChecksum` (lib/utils)

The source computes a 32-bit rolling hash over the UTF-16 code units of the
content (`hash = ((hash << 5) - hash) + charCode`, truncated to a signed
32-bit integer), takes the absolute value, renders it in lowercase
hexadecimal and left-pads with `'0'` to eight characters.  We model the
signed 32-bit truncation explicitly on `Int`.  (`charCodeAt` returns UTF-16
code units; for the characters appearing anywhere in this development these
coincide with code points.) -/

/-- Truncation of an integer to a signed 32-bit value, as JavaScript's
`| 0` / `& hash` coercion performs. -/
def toInt32 (x : Int) : Int := (x + 2 ^ 31) % 2 ^ 32 - 2 ^ 31

/-- One step of the rolling hash: `((hash << 5) - hash) + char`, then
coerced back to a signed 32-bit integer by `hash = hash & hash`. -/
def checksumStep (h : Int) (c : Nat) : Int :=
  toInt32 (toInt32 (h * 2 ^ 5) - h + (c : Int))

/-- The accumulated 32-bit hash of a string, folding `checksumStep` over
its characters starting from `0`. -/
def stringHash (s : String) : Int :=
  s.data.foldl (fun h ch => checksumStep h ch.toNat) 0

/-- Left-pad a string with `'0'` to length eight (`padStart(8, '0')`). -/
def padStart8 (s : String) : String :=
  if s.length < 8 then String.mk (List.replicate (8 - s.length) '0') ++ s
  else s

/-- `generateChecksum` from `lib/utils`: hex rendering of the absolute
value of the rolling hash, padded to eight characters. -/
def generateChecksum (content : String) : String :=
  padStart8 (String.mk (Nat.toDigits 16 (stringHash content).natAbs))

/-! ## Data model (lib/types) -/

/-- Roles a node can take (`NodeRole`). -/
inductive NodeRole where
  | coordinator | worker | registry | monitor
  deriving Repr, DecidableEq

/-- Status of a node (`NodeStatus`). -/
inductive NodeStatus where
  | online | offline | busy | migrating
  deriving Repr, DecidableEq

/-- Status of a task (`TaskStatus`). -/
inductive TaskStatus where
  | pending | running | paused | migrating | completed | failed
  deriving Repr, DecidableEq

/-- Migration class of a task (`MigrationType`). -/
inductive MigrationType where
  | weak | strong
  deriving Repr, DecidableEq

/-- Migration event kinds (`MigrationEventType`). -/
inductive MigrationEventType where
  | migration_requested | migration_started | checkpoint_saved
  | code_transferred | state_transferred | migration_completed
  | migration_failed | execution_resumed | node_failure_detected
  | task_recovered
  deriving Repr, DecidableEq

/-- Node metadata (`NodeInfo`).  `joinedAt` / `lastPing` are epoch
milliseconds. -/
structure NodeInfo where
  id : String
  name : String
  role : NodeRole
  status : NodeStatus
  address : String
  joinedAt : Nat
  lastPing : Option Nat
  deriving Repr, DecidableEq

/-- A connected node as tracked by the coordinator (`ConnectedNode`); the
socket itself is modelled through the emitted `Effect`s. -/
structure ConnectedNode where
  info : NodeInfo
  lastPing : Nat
  deriving Repr, DecidableEq

/-- An execution checkpoint (`ExecutionCheckpoint`).  The source field
`variables` (an opaque key-to-value record whose values we model as their
serialized strings) is named `vars` here because `variables` is reserved in
Lean.  The coordinator reads an optional `checksum` field declared in the
spec's data model. -/
structure ExecutionCheckpoint where
  id : String
  taskId : String
  currentStep : Nat
  totalSteps : Nat
  vars : List (String × String)
  sourceNodeId : String
  createdAt : Nat
  checksum : Option String
  deriving Repr, DecidableEq

/-- A code bundle (`CodeBundle`). -/
structure CodeBundle where
  id : String
  name : String
  description : String
  code : String
  version : String
  checksum : String
  createdAt : Nat
  deriving Repr, DecidableEq

/-- A task (`Task`).  The terminal `result` record is not modelled: no
claim inspects it. -/
structure Task where
  id : String
  name : String
  code : String
  customCode : Option String
  status : TaskStatus
  migrationType : MigrationType
  currentNodeId : Option String
  progress : ℚ
  createdAt : Nat
  startedAt : Option Nat
  completedAt : Option Nat
  deriving Repr, DecidableEq

/-- A resource sample reported by a worker (`NodeStats`); `timestamp` is
epoch milliseconds, `cpuUsage` a percentage. -/
structure NodeStats where
  nodeId : String
  timestamp : Nat
  cpuUsage : ℚ
  memoryUsedMb : ℚ
  memoryTotalMb : ℚ
  deriving Repr, DecidableEq

/-! ## Configuration (lib/constants, `DEFAULT_CONFIG`) -/

/-- The configuration record (`DEFAULT_CONFIG` shape). -/
structure Config where
  COORDINATOR_PORT : Nat
  HEARTBEAT_TIMEOUT : Nat
  CHECK_INTERVAL : Nat
  WORKER_PORT : Nat
  HEARTBEAT_INTERVAL : Nat
  REGISTRY_PORT : Nat
  CHECKPOINT_INTERVAL_STEPS : Nat
  AUTO_MIGRATION_CPU_THRESHOLD : ℚ
  AUTO_MIGRATION_DURATION_MS : Nat
  DEMO_TASK_TOTAL_STEPS : Nat
  DEMO_STEP_DELAY_MS : Nat
  deriving Repr, DecidableEq

/-- The default configuration values from `lib/constants`. -/
def DEFAULT_CONFIG : Config :=
  { COORDINATOR_PORT := 3001
    HEARTBEAT_TIMEOUT := 4000
    CHECK_INTERVAL := 2000
    WORKER_PORT := 3002
    HEARTBEAT_INTERVAL := 1000
    REGISTRY_PORT := 3003
    CHECKPOINT_INTERVAL_STEPS := 10
    AUTO_MIGRATION_CPU_THRESHOLD := 90
    AUTO_MIGRATION_DURATION_MS := 5000
    DEMO_TASK_TOTAL_STEPS := 100
    DEMO_STEP_DELAY_MS := 500 }

/-! ## Checkpoint utilities (lib/utils) -/

/-- `createCheckpoint` from `lib/utils`: builds a checkpoint record from its
arguments.  The generated UUID and the current date are passed in
explicitly.  Note that the source function sets no `checksum` field, so a
worker-built checkpoint carries none. -/
def createCheckpoint (freshId taskId : String) (currentStep totalSteps : Nat)
    (vars : List (String × String)) (sourceNodeId : String) (now : Nat) :
    ExecutionCheckpoint :=
  { id := freshId
    taskId := taskId
    currentStep := currentStep
    totalSteps := totalSteps
    vars := vars
    sourceNodeId := sourceNodeId
    createdAt := now
    checksum := none }

/-- Insertion of a key-value pair into a key-sorted list, used to
canonicalize the `variables` record before hashing. -/
def insertByKey (p : String × String) :
    List (String × String) → List (String × String)
  | [] => [p]
  | q :: qs => if p.1 ≤ q.1 then p :: q :: qs else q :: insertByKey p qs

/-- Sorts a key-value list by key (insertion sort). -/
def sortByKey (l : List (String × String)) : List (String × String) :=
  l.foldr insertByKey []

/-- Serializes a `variables` record as a sorted-key JSON object body. -/
def serializeVars (vars : List (String × String)) : String :=
  String.intercalate ","
    ((sortByKey vars).map (fun p => "\"" ++ p.1 ++ "\":\"" ++ p.2 ++ "\""))

/-- Canonical serialization of a checkpoint's content: sorted-key JSON of
the record with fields taskId, currentStep, totalSteps, variables. -/
def checkpointContent (cp : ExecutionCheckpoint) : String :=
  "\x7b\"currentStep\":" ++ toString cp.currentStep ++
  ",\"taskId\":\"" ++ cp.taskId ++
  "\",\"totalSteps\":" ++ toString cp.totalSteps ++
  ",\"variables\":\x7b" ++ serializeVars cp.vars ++ "\x7d\x7d"

/-- Modelled from the spec: the coordinator imports
`calculateCheckpointChecksum` from `lib/utils`, but that function's
definition is not among the provided source files (the utils module ends
before it).  Design note 5 of the spec fixes it as the content hash over
the checkpoint's content, with the recommended canonicalization being
sorted-key JSON of the fields taskId, currentStep, totalSteps and
variables; we therefore apply the repository's `generateChecksum` to that
canonical serialization. -/
def calculateCheckpointChecksum (cp : ExecutionCheckpoint) : String :=
  generateChecksum (checkpointContent cp)

/-! ## Code registry (lib/registry/code-registry.ts) -/

/-- The in-memory registry state: bundles keyed by id and by name,
per-task checkpoint history, and the latest checkpoint per task. -/
structure CodeRegistry where
  bundles : List (String × CodeBundle)
  checkpoints : List (String × List ExecutionCheckpoint)
  latestCheckpoints : List (String × ExecutionCheckpoint)
  deriving Repr, DecidableEq

/-- `createCodeBundle` from `lib/utils`: wraps code into a bundle whose
checksum is `generateChecksum` of the code.  The generated UUID and the
creation date are passed in explicitly. -/
def createCodeBundle (freshId name code description : String) (now : Nat) :
    CodeBundle :=
  { id := freshId
    name := name
    description := description
    code := code
    version := "1.0.0"
    checksum := generateChecksum code
    createdAt := now }

/-- `CodeRegistry.registerBundle`: creates the bundle and stores it under
both its generated id and its name. -/
def registerBundle (r : CodeRegistry) (freshId name code description : String)
    (now : Nat) : CodeRegistry :=
  let bundle := createCodeBundle freshId name code description now
  { r with bundles := mapSet (mapSet r.bundles bundle.id bundle) name bundle }

/-- `CodeRegistry.getBundle`: lookup by id or name. -/
def getBundle (r : CodeRegistry) (idOrName : String) : Option CodeBundle :=
  mapGet r.bundles idOrName

/-- `CodeRegistry.initDefaultBundles` (run by the constructor): registers
the counting and sum demo templates under their generated ids and the
aliases `counting-task` / `sum-task`.  The template code strings
(`DEMO_CODE_TEMPLATES.COUNTING_TASK` / `SUM_TASK`) are passed as
parameters; their literal text plays no role in any claim beyond being the
hashed content. -/
def initDefaultBundles (id1 id2 countingCode sumCode : String) (now : Nat) :
    CodeRegistry :=
  let countingBundle := createCodeBundle id1 "counting-task" countingCode
    "Demo đếm số từ 1 đến N - hỗ trợ checkpoint" now
  let sumBundle := createCodeBundle id2 "sum-task" sumCode
    "Demo tính tổng từ 1 đến N - hỗ trợ checkpoint và resume" now
  { bundles :=
      mapSet (mapSet (mapSet (mapSet [] countingBundle.id countingBundle)
        "counting-task" countingBundle) sumBundle.id sumBundle)
        "sum-task" sumBundle
    checkpoints := []
    latestCheckpoints := [] }

/-- `CodeRegistry.saveCheckpoint`: appends to the per-task history
(creating it if absent) and updates the latest pointer, unconditionally. -/
def saveCheckpoint (r : CodeRegistry) (cp : ExecutionCheckpoint) :
    CodeRegistry :=
  let history := match mapGet r.checkpoints cp.taskId with
    | none => [cp]
    | some l => l ++ [cp]
  { r with
    checkpoints := mapSet r.checkpoints cp.taskId history
    latestCheckpoints := mapSet r.latestCheckpoints cp.taskId cp }

/-- `CodeRegistry.getLatestCheckpoint`. -/
def getLatestCheckpoint (r : CodeRegistry) (taskId : String) :
    Option ExecutionCheckpoint :=
  mapGet r.latestCheckpoints taskId

/-- `CodeRegistry.getCheckpointHistory`: the stored history or `[]`. -/
def getCheckpointHistory (r : CodeRegistry) (taskId : String) :
    List ExecutionCheckpoint :=
  (mapGet r.checkpoints taskId).getD []

/-- `CodeRegistry.import` (named `importData` because `import` is reserved
in Lean): stores every given bundle under its id and name and every given
checkpoint list verbatim, pointing `latestCheckpoints` at each list's last
element — with no checksum verification anywhere. -/
def importData (r : CodeRegistry) (bundles : List CodeBundle)
    (checkpointData : List (String × List ExecutionCheckpoint)) :
    CodeRegistry :=
  let bundles' := bundles.foldl
    (fun m b => mapSet (mapSet m b.id b) b.name b) r.bundles
  let step := fun (acc : List (String × List ExecutionCheckpoint) ×
      List (String × ExecutionCheckpoint))
      (p : String × List ExecutionCheckpoint) =>
    let cps := mapSet acc.1 p.1 p.2
    let latest := match p.2.getLast? with
      | some last => mapSet acc.2 p.1 last
      | none => acc.2
    (cps, latest)
  let folded := checkpointData.foldl step (r.checkpoints, r.latestCheckpoints)
  { bundles := bundles', checkpoints := folded.1, latestCheckpoints := folded.2 }

/-- The registry integrity contract from the spec: every bundle
retrievable through `getBundle` has a checksum equal to the content hash of
its code. -/
def RegistryIntegrity (r : CodeRegistry) : Prop :=
  ∀ s b, getBundle r s = some b → generateChecksum b.code = b.checksum

/-! ## Coordinator state and observable effects (server/coordinator.ts) -/

/-- Observable actions of the coordinator: socket emissions towards nodes,
resolution or rejection of a pending-checkpoint waiter, the broadcast of a
stored checkpoint, and broadcast migration events. -/
inductive Effect where
  | taskPause (nodeId taskId : String) (requireSnapshot : Bool)
  | taskAssign (nodeId taskId : String) (checkpoint : Option ExecutionCheckpoint)
  | waiterResolved (taskId : String) (cp : ExecutionCheckpoint)
  | waiterRejected (taskId reason : String)
  | broadcastCheckpointSaved (cp : ExecutionCheckpoint)
  | migrationEvent (kind : MigrationEventType)
      (taskId sourceNodeId targetNodeId : String)
  deriving Repr, DecidableEq

/-- The coordinator's mutable state: the node table, the task table, the
pending-checkpoint waiter map (modelled by the set of task ids that have a
registered waiter), the per-node stats history and the embedded
registry. -/
structure CoordinatorState where
  nodes : List (String × ConnectedNode)
  tasks : List (String × Task)
  pendingCheckpoints : List String
  nodeStatsHistory : List (String × List NodeStats)
  registry : CodeRegistry
  deriving Repr, DecidableEq

/-- Payload of a `migration:request` message. -/
structure MigrationRequestData where
  taskId : String
  sourceNodeId : String
  targetNodeId : String
  migrationType : MigrationType
  deriving Repr, DecidableEq

/-- Registration of a pending-checkpoint waiter
(`pendingCheckpoints.set(taskId, ...)` inside `waitForCheckpoint`): at most
one waiter per task id is tracked. -/
def registerWaiter (pending : List String) (taskId : String) : List String :=
  if taskId ∈ pending then pending else pending ++ [taskId]

/-- The ephemeral bundle the coordinator builds for a task that carries
`customCode` (both in `handleTaskSubmit` and in `handleMigrationRequest`);
its checksum is the placeholder string `custom`. -/
def customCodeBundle (task : Task) (customCode : String) (now : Nat) :
    CodeBundle :=
  { id := "custom-bundle-" ++ task.id
    name := "Custom Code for " ++ task.name
    description := "Custom code submitted by user"
    code := customCode
    version := "1.0.0"
    checksum := "custom"
    createdAt := now }

/-- Result of the synchronous prefix of `handleMigrationRequest`. -/
structure PrepareResult where
  state : CoordinatorState
  effects : List Effect
  bundle : Option CodeBundle
  deriving Repr, DecidableEq

/-- The synchronous prefix of `CoordinatorServer.handleMigrationRequest`
(phase 1 and the registration performed by `waitForCheckpoint`): if the
task or either node id is unregistered the handler returns with no
change; otherwise it emits `task:pause` to the source (with
`requireSnapshot` exactly for strong migrations), sets the task's status to
`migrating`, resolves the code bundle (custom code first, else the
registry's `counting-task`), and — when the bundle resolved and the
migration is strong — registers the pending-checkpoint waiter. -/
def handleMigrationRequestPrepare (s : CoordinatorState)
    (d : MigrationRequestData) (now : Nat) : PrepareResult :=
  match mapGet s.tasks d.taskId with
  | none => ⟨s, [], none⟩
  | some task =>
    match mapGet s.nodes d.sourceNodeId, mapGet s.nodes d.targetNodeId with
    | some _, some _ =>
      let pauseEff := Effect.taskPause d.sourceNodeId d.taskId
        (decide (d.migrationType = MigrationType.strong))
      let task' := { task with status := TaskStatus.migrating }
      let s1 := { s with tasks := mapSet s.tasks d.taskId task' }
      let codeBundle : Option CodeBundle :=
        match task.customCode with
        | some cc => some (customCodeBundle task cc now)
        | none => getBundle s.registry "counting-task"
      match codeBundle with
      | none => ⟨s1, [pauseEff], none⟩
      | some b =>
        let s2 := if d.migrationType = MigrationType.strong then
            { s1 with pendingCheckpoints :=
                registerWaiter s1.pendingCheckpoints d.taskId }
          else s1
        ⟨s2, [pauseEff], some b⟩
    | _, _ => ⟨s, [], none⟩

/-- The timer body of `CoordinatorServer.waitForCheckpoint`: if a waiter is
still registered for the task it is removed and rejected with a timeout
error; the surrounding catch branch of `handleMigrationRequest` then merely
logs and returns, touching no task state. -/
def checkpointWaitTimeout (s : CoordinatorState) (taskId : String) :
    CoordinatorState × List Effect :=
  if taskId ∈ s.pendingCheckpoints then
    ({ s with pendingCheckpoints := s.pendingCheckpoints.erase taskId },
     [Effect.waiterRejected taskId "Timeout waiting for checkpoint (5000ms)"])
  else (s, [])

/-- `CoordinatorServer.handleCheckpointSaved`: first persists the
checkpoint into the registry, then — if a waiter is pending for the task —
validates the declared checksum (only when one is present and non-empty)
against the recomputed one, rejecting the waiter on mismatch and resolving
it otherwise; the `checkpoint:saved` broadcast is emitted except on the
mismatch path, which returns early. -/
def handleCheckpointSaved (s : CoordinatorState) (cp : ExecutionCheckpoint) :
    CoordinatorState × List Effect :=
  let s0 := { s with registry := saveCheckpoint s.registry cp }
  if cp.taskId ∈ s0.pendingCheckpoints then
    let expected := calculateCheckpointChecksum cp
    let cleared :=
      { s0 with pendingCheckpoints := s0.pendingCheckpoints.erase cp.taskId }
    match cp.checksum with
    | some c =>
      if c ≠ "" ∧ c ≠ expected then
        (cleared,
         [Effect.waiterRejected cp.taskId
            "Checkpoint Checksum Mismatch (Data Corruption)"])
      else
        (cleared,
         [Effect.waiterResolved cp.taskId cp,
          Effect.broadcastCheckpointSaved cp])
    | none =>
      (cleared,
       [Effect.waiterResolved cp.taskId cp,
        Effect.broadcastCheckpointSaved cp])
  else (s0, [Effect.broadcastCheckpointSaved cp])

/-- `CoordinatorServer.findAvailableWorker`: the first node in map
iteration order whose role is `worker` and whose status is `online`. -/
def findAvailableWorker (nodes : List (String × ConnectedNode)) :
    Option (String × ConnectedNode) :=
  nodes.find? (fun p =>
    decide (p.2.info.role = NodeRole.worker ∧
            p.2.info.status = NodeStatus.online))

/-- `CoordinatorServer.findAutoMigrationTarget`: the first online worker
whose id differs from the excluded node. -/
def findAutoMigrationTarget (nodes : List (String × ConnectedNode))
    (excludeNodeId : String) : Option (String × ConnectedNode) :=
  nodes.find? (fun p =>
    decide (p.2.info.role = NodeRole.worker ∧
            p.2.info.status = NodeStatus.online ∧
            p.2.info.id ≠ excludeNodeId))

/-- `CoordinatorServer.assignTaskToNode` (as called from the recovery
manager, i.e. with no override bundle): resolves the registry's
`counting-task` bundle (returning unchanged if it is missing), marks the
task `running` on the worker, stamps `startedAt` if unset, marks the worker
`busy` and emits `task:assign` carrying the optional checkpoint.  The task
and worker object references of the source are modelled by their map
keys. -/
def assignTaskToNode (s : CoordinatorState) (taskKey workerKey : String)
    (checkpoint : Option ExecutionCheckpoint) (now : Nat) :
    CoordinatorState × List Effect :=
  match getBundle s.registry "counting-task" with
  | none => (s, [])
  | some _ =>
    match mapGet s.tasks taskKey, mapGet s.nodes workerKey with
    | some task, some worker =>
      let task' := { task with
        status := TaskStatus.running
        currentNodeId := some worker.info.id
        startedAt := some (task.startedAt.getD now) }
      let worker' := { worker with info :=
        { worker.info with status := NodeStatus.busy } }
      ({ s with
          tasks := mapSet s.tasks taskKey task'
          nodes := mapSet s.nodes workerKey worker' },
       [Effect.taskAssign worker.info.id taskKey checkpoint])
    | _, _ => (s, [])

/-! ## Recovery manager (lib/recovery/task-recovery-manager.ts) -/

/-- `TaskRecoveryManager.findAffectedTasks`: tasks bound to the failed
node whose status is `running` or `migrating`. -/
def findAffectedTasks (tasks : List (String × Task)) (nodeId : String) :
    List (String × Task) :=
  tasks.filter (fun p =>
    decide (p.2.currentNodeId = some nodeId ∧
      (p.2.status = TaskStatus.running ∨ p.2.status = TaskStatus.migrating)))

/-- `TaskRecoveryManager.performWeakRecovery`: emits `task_recovered`,
resets progress, rebinds the task to the replacement worker as `running`
and reassigns with no checkpoint. -/
def performWeakRecovery (s : CoordinatorState) (taskKey : String)
    (task : Task) (failedNodeId workerKey : String) (worker : ConnectedNode)
    (now : Nat) : CoordinatorState × List Effect :=
  let ev := Effect.migrationEvent MigrationEventType.task_recovered
    task.id failedNodeId worker.info.id
  let task' := { task with
    progress := 0
    currentNodeId := some worker.info.id
    status := TaskStatus.running }
  let s1 := { s with tasks := mapSet s.tasks taskKey task' }
  let assigned := assignTaskToNode s1 taskKey workerKey none now
  (assigned.1, ev :: assigned.2)

/-- `TaskRecoveryManager.performStrongRecovery`: looks up the latest
checkpoint, emits `task_recovered`, rebinds the task as `running` with the
progress recomputed from the checkpoint (or `0` without one) and reassigns
with the checkpoint. -/
def performStrongRecovery (s : CoordinatorState) (taskKey : String)
    (task : Task) (failedNodeId workerKey : String) (worker : ConnectedNode)
    (now : Nat) : CoordinatorState × List Effect :=
  let latest := getLatestCheckpoint s.registry task.id
  let ev := Effect.migrationEvent MigrationEventType.task_recovered
    task.id failedNodeId worker.info.id
  let progress : ℚ := match latest with
    | some cp => (cp.currentStep : ℚ) / (cp.totalSteps : ℚ) * 100
    | none => 0
  let task' := { task with
    currentNodeId := some worker.info.id
    status := TaskStatus.running
    progress := progress }
  let s1 := { s with tasks := mapSet s.tasks taskKey task' }
  let assigned := assignTaskToNode s1 taskKey workerKey latest now
  (assigned.1, ev :: assigned.2)

/-- `TaskRecoveryManager.recoverTask`: with no replacement worker the task
is marked `failed` (its `currentNodeId` is left untouched) and
`migration_failed` is emitted with target `NONE`; otherwise the weak or
strong recovery runs according to the task's migration class. -/
def recoverTask (s : CoordinatorState) (taskKey failedNodeId : String)
    (now : Nat) : CoordinatorState × List Effect :=
  match mapGet s.tasks taskKey with
  | none => (s, [])
  | some task =>
    match findAvailableWorker s.nodes with
    | none =>
      let task' := { task with status := TaskStatus.failed }
      ({ s with tasks := mapSet s.tasks taskKey task' },
       [Effect.migrationEvent MigrationEventType.migration_failed
          task.id failedNodeId "NONE"])
    | some (workerKey, worker) =>
      if task.migrationType = MigrationType.weak then
        performWeakRecovery s taskKey task failedNodeId workerKey worker now
      else
        performStrongRecovery s taskKey task failedNodeId workerKey worker now

/-- Sequential recovery of a list of affected task keys. -/
def recoverTasks (s : CoordinatorState) (keys : List String)
    (failedNodeId : String) (now : Nat) : CoordinatorState × List Effect :=
  match keys with
  | [] => (s, [])
  | k :: ks =>
    let step := recoverTask s k failedNodeId now
    let rest := recoverTasks step.1 ks failedNodeId now
    (rest.1, step.2 ++ rest.2)

/-- `TaskRecoveryManager.handleNodeFailure`: collects the affected tasks;
if none, returns; otherwise emits `node_failure_detected` (named after the
first affected task) and recovers each affected task in order. -/
def handleNodeFailure (s : CoordinatorState) (failedNodeId : String)
    (now : Nat) : CoordinatorState × List Effect :=
  match findAffectedTasks s.tasks failedNodeId with
  | [] => (s, [])
  | (k0, t0) :: rest =>
    let ev := Effect.migrationEvent MigrationEventType.node_failure_detected
      t0.id failedNodeId "SYSTEM"
    let recovered := recoverTasks s (k0 :: rest.map Prod.fst) failedNodeId now
    (recovered.1, ev :: recovered.2)

/-- The per-node body of the heartbeat sweep in `CoordinatorServer.start`:
a node whose last ping is older than `HEARTBEAT_TIMEOUT` and that is not
yet `offline` is marked `offline` and the recovery manager is invoked for
it. -/
def heartbeatSweepNode (s : CoordinatorState) (nodeId : String) (now : Nat) :
    CoordinatorState × List Effect :=
  match mapGet s.nodes nodeId with
  | none => (s, [])
  | some node =>
    if DEFAULT_CONFIG.HEARTBEAT_TIMEOUT < now - node.lastPing then
      if node.info.status ≠ NodeStatus.offline then
        let node' := { node with info :=
          { node.info with status := NodeStatus.offline } }
        handleNodeFailure { s with nodes := mapSet s.nodes nodeId node' }
          nodeId now
      else (s, [])
    else (s, [])

/-! ## Auto-migration detector (server/coordinator.ts, checkAutoMigration) -/

/-- Result of one run of the auto-migration check: resulting state, emitted
effects, and the `(taskId, targetNodeId)` pair of the triggered migration,
if any. -/
structure AutoMigrationResult where
  state : CoordinatorState
  effects : List Effect
  triggered : Option (String × String)
  deriving Repr, DecidableEq

/-- `CoordinatorServer.checkAutoMigration`: filters the node's stats
history to the trailing `AUTO_MIGRATION_DURATION_MS` window, requires at
least 80 % of the expected samples (`0.8` is the exact rational `4/5`),
requires every relevant sample's `cpuUsage` to exceed
`AUTO_MIGRATION_CPU_THRESHOLD`, looks for a `running` task bound to the
node and an online worker other than the node, and — only when all of
these are found — runs the strong migration request and clears the node's
history (the code clears it after `handleMigrationRequest` settles; its
asynchronous interleaving is not modelled).

The source's sample-count guard is
`relevantStats.length < expectedSamples * 0.8`.  `0.8` is the rational
`4/5`, and `expectedSamples` is the fixed value
`AUTO_MIGRATION_DURATION_MS / HEARTBEAT_INTERVAL = 5` (the floating-point
product `5 * 0.8` also rounds to exactly `4.0`), so the guard is rendered
by the equivalent integer comparison
`relevantStats.length * 5 < expectedSamples * 4`. -/
def checkAutoMigration (s : CoordinatorState) (nodeId : String) (now : Nat) :
    AutoMigrationResult :=
  match mapGet s.nodeStatsHistory nodeId with
  | none => ⟨s, [], none⟩
  | some history =>
    let windowStart := now - DEFAULT_CONFIG.AUTO_MIGRATION_DURATION_MS
    let relevantStats := history.filter
      (fun st => decide (windowStart ≤ st.timestamp))
    let expectedSamples := DEFAULT_CONFIG.AUTO_MIGRATION_DURATION_MS /
      DEFAULT_CONFIG.HEARTBEAT_INTERVAL
    if relevantStats.length * 5 < expectedSamples * 4 then
      ⟨s, [], none⟩
    else if relevantStats.all (fun st =>
        decide (DEFAULT_CONFIG.AUTO_MIGRATION_CPU_THRESHOLD < st.cpuUsage)) then
      match s.tasks.find? (fun p =>
          decide (p.2.currentNodeId = some nodeId ∧
                  p.2.status = TaskStatus.running)) with
      | some (_, runningTask) =>
        match findAutoMigrationTarget s.nodes nodeId with
        | some (_, targetNode) =>
          let res := handleMigrationRequestPrepare s
            ⟨runningTask.id, nodeId, targetNode.info.id,
             MigrationType.strong⟩ now
          let clearedHistory := mapSet res.state.nodeStatsHistory nodeId []
          let cleared := { res.state with nodeStatsHistory := clearedHistory }
          ⟨cleared, res.effects, some (runningTask.id, targetNode.info.id)⟩
        | none => ⟨s, [], none⟩
      | none => ⟨s, [], none⟩
    else ⟨s, [], none⟩

/-! ## Execution runtime and the counting template
(lib/runtime/execution-runtime.ts, lib/constants DEMO_CODE_TEMPLATES) -/

/-- `ExecutionRuntime.execute` with a checkpoint: the runtime's current
step counter is initialised to `checkpoint.currentStep` (the runtime does
not add one); without a checkpoint it stays `0`. -/
def runtimeInitialStep (checkpoint : Option ExecutionCheckpoint) : Nat :=
  match checkpoint with
  | some cp => cp.currentStep
  | none => 0

/-- The resumption point of the `COUNTING_TASK` template:
`let current = context.checkpoint?.currentStep || startFrom` — JavaScript's
`||` falls back to `startFrom` when the checkpoint is absent or its
`currentStep` is `0` (falsy). -/
def countingTaskResumeStep (checkpoint : Option ExecutionCheckpoint)
    (startFrom : Nat) : Nat :=
  match checkpoint with
  | some cp => if cp.currentStep = 0 then startFrom else cp.currentStep
  | none => startFrom

/-- The steps the `COUNTING_TASK` template executes and reports (an
uninterrupted run): the loop `while (current <= endAt)` runs
`reportProgress` at each value of `current` from the resumption point up to
`endAt`. -/
def countingTaskExecutedSteps (startFrom endAt : Nat)
    (checkpoint : Option ExecutionCheckpoint) : List Nat :=
  let c0 := countingTaskResumeStep checkpoint startFrom
  List.range' c0 (endAt + 1 - c0)

/-! ## Invariant predicates used by the theorems -/

/-- A task does not actively run on the given node: if its
`currentNodeId` is that node, its status is neither `running` nor
`migrating`. -/
def TaskInactiveOn (nodeId : String) (t : Task) : Prop :=
  t.currentNodeId = some nodeId →
    t.status ≠ TaskStatus.running ∧ t.status ≠ TaskStatus.migrating

/-- Well-formedness of the node table relative to a failed node: every
entry's `info.id` equals its key, keys are unique, and any entry stored
under the failed node's id is `offline`. -/
def NodesInv (nodeId : String) (nodes : List (String × ConnectedNode)) :
    Prop :=
  (∀ p ∈ nodes, p.2.info.id = p.1) ∧
  (nodes.map Prod.fst).Nodup ∧
  (∀ p ∈ nodes, p.1 = nodeId → p.2.info.status = NodeStatus.offline)

/-! ## Concrete fixtures for the counterexamples and witnesses -/

/-- Fixture: a worker node record. -/
def mkWorkerNode (id name : String) (status : NodeStatus) : ConnectedNode :=
  let info : NodeInfo :=
    { id := id
      name := name
      role := NodeRole.worker
      status := status
      address := ""
      joinedAt := 0
      lastPing := some 0 }
  { info := info, lastPing := 0 }

/-- Fixture: a task record. -/
def mkTaskFixture (id : String) (status : TaskStatus) (mt : MigrationType)
    (node : Option String) (customCode : Option String) : Task :=
  { id := id, name := id, code := "", customCode := customCode
    status := status, migrationType := mt, currentNodeId := node
    progress := 0, createdAt := 0, startedAt := some 0, completedAt := none }

/-- Fixture: a registry with no contents (used to seed states whose claims
do not touch the bundle store). -/
def emptyRegistry : CodeRegistry :=
  { bundles := [], checkpoints := [], latestCheckpoints := [] }

/-- Fixture: a registry initialised the way the `CodeRegistry` constructor
does. -/
def demoRegistry : CodeRegistry :=
  initDefaultBundles "bundle-1" "bundle-2" "counting-code" "sum-code" 0

/-- Fixture for C1: a task already `migrating` on source `A`, both nodes
registered. -/
def c1State : CoordinatorState :=
  { nodes := [("A", mkWorkerNode "A" "Worker A" NodeStatus.busy),
              ("B", mkWorkerNode "B" "Worker B" NodeStatus.online)]
    tasks := [("T1", mkTaskFixture "T1" TaskStatus.migrating
      MigrationType.strong (some "A") (some "task-code"))]
    pendingCheckpoints := ["T1"]
    nodeStatsHistory := []
    registry := emptyRegistry }

/-- Fixture for C1: a second strong migration request naming `T1`. -/
def c1Request : MigrationRequestData :=
  ⟨"T1", "A", "B", MigrationType.strong⟩

/-- Fixture for C2: a running strong task on source `A`. -/
def c2State : CoordinatorState :=
  { nodes := [("A", mkWorkerNode "A" "Worker A" NodeStatus.busy),
              ("B", mkWorkerNode "B" "Worker B" NodeStatus.online)]
    tasks := [("T2", mkTaskFixture "T2" TaskStatus.running
      MigrationType.strong (some "A") (some "task-code"))]
    pendingCheckpoints := []
    nodeStatsHistory := []
    registry := emptyRegistry }

/-- Fixture for C2: the strong migration request for `T2`. -/
def c2Request : MigrationRequestData :=
  ⟨"T2", "A", "B", MigrationType.strong⟩

/-- Fixture for C2: the coordinator state after the prepare phase followed
by the checkpoint-wait timeout (the AWAIT_SNAPSHOT failure). -/
def c2Aborted : CoordinatorState :=
  (checkpointWaitTimeout
    (handleMigrationRequestPrepare c2State c2Request 0).state "T2").1

/-- Fixture for C3: a checkpoint at step 5 of 10. -/
def c3Checkpoint : ExecutionCheckpoint :=
  { id := "cp3", taskId := "T3", currentStep := 5, totalSteps := 10
    vars := [("current", "5")], sourceNodeId := "A", createdAt := 0
    checksum := none }

/-- Fixture for C4: a checkpoint for `T4` that carries no checksum. -/
def c4Checkpoint : ExecutionCheckpoint :=
  { id := "cp4", taskId := "T4", currentStep := 7, totalSteps := 10
    vars := [("current", "7")], sourceNodeId := "A", createdAt := 0
    checksum := none }

/-- Fixture for C4: a state with a pending waiter for `T4`. -/
def c4State : CoordinatorState :=
  { nodes := [], tasks := [], pendingCheckpoints := ["T4"]
    nodeStatsHistory := [], registry := emptyRegistry }

/-- Fixture for the C4 witness: a state with a pending waiter for
`T4w`. -/
def c4WitnessState : CoordinatorState :=
  { nodes := [], tasks := [], pendingCheckpoints := ["T4w"]
    nodeStatsHistory := [], registry := emptyRegistry }

/-- Fixture for the C4 witness: a checkpoint for `T4w` whose declared
checksum mismatches the recomputed one. -/
def c4WitnessCheckpoint : ExecutionCheckpoint :=
  { id := "cp4w", taskId := "T4w", currentStep := 2, totalSteps := 10
    vars := [("current", "2")], sourceNodeId := "A", createdAt := 0
    checksum := some "bogus" }

/-- Fixture for C5: task `T5` is owned by node `B`, while the request
names `A` as both source and target. -/
def c5State : CoordinatorState :=
  { nodes := [("A", mkWorkerNode "A" "Worker A" NodeStatus.online),
              ("B", mkWorkerNode "B" "Worker B" NodeStatus.online)]
    tasks := [("T5", mkTaskFixture "T5" TaskStatus.running
      MigrationType.weak (some "B") (some "task-code"))]
    pendingCheckpoints := []
    nodeStatsHistory := []
    registry := emptyRegistry }

/-- Fixture for C5: a request whose source does not own the task and whose
source and target coincide. -/
def c5Request : MigrationRequestData :=
  ⟨"T5", "A", "A", MigrationType.weak⟩

/-- Fixture for C6: a bundle whose declared checksum does not match its
code. -/
def c6BadBundle : CodeBundle :=
  { id := "bad-id", name := "bad", description := "", code := "x"
    version := "1.0.0", checksum := "deadbeef", createdAt := 0 }

/-- Fixture for C6: a default-initialised registry into which the bad
bundle has been imported. -/
def c6Registry : CodeRegistry :=
  importData (initDefaultBundles "cid" "sid" "counting-code" "sum-code" 0)
    [c6BadBundle] []

/-- Fixture for C7: a checkpoint for `T7` at step 5. -/
def c7Cp1 : ExecutionCheckpoint :=
  { id := "cp7a", taskId := "T7", currentStep := 5, totalSteps := 10
    vars := [("current", "5")], sourceNodeId := "A", createdAt := 0
    checksum := none }

/-- Fixture for C7: a later checkpoint for `T7` at the smaller step 3. -/
def c7Cp2 : ExecutionCheckpoint :=
  { id := "cp7b", taskId := "T7", currentStep := 3, totalSteps := 10
    vars := [("current", "3")], sourceNodeId := "A", createdAt := 1
    checksum := none }

/-- Fixture for C7: the registry after saving step 5 and then step 3. -/
def c7Registry : CodeRegistry :=
  saveCheckpoint (saveCheckpoint emptyRegistry c7Cp1) c7Cp2

/-- Fixture for C8: the timed-out node `A`. -/
def c8Node : ConnectedNode := mkWorkerNode "A" "Worker A" NodeStatus.busy

/-- Fixture for C8: a running strong task on `A` and no other worker. -/
def c8State : CoordinatorState :=
  { nodes := [("A", c8Node)]
    tasks := [("T8", mkTaskFixture "T8" TaskStatus.running
      MigrationType.strong (some "A") none)]
    pendingCheckpoints := []
    nodeStatsHistory := []
    registry := demoRegistry }

/-- Fixture for C8: the task value `T8` ends at after the sweep (marked
`failed`, still bound to `A`). -/
def c8FailedTask : Task :=
  { mkTaskFixture "T8" TaskStatus.running MigrationType.strong
      (some "A") none with status := TaskStatus.failed }

/-- Fixture for C9: a CPU sample of 95 % on node `A`. -/
def c9Stats (ts : Nat) : NodeStats :=
  { nodeId := "A", timestamp := ts, cpuUsage := 95
    memoryUsedMb := 100, memoryTotalMb := 1000 }

/-- Fixture for C9: node `A` overloaded for the whole window with a
running task, but no other online worker exists. -/
def c9State : CoordinatorState :=
  { nodes := [("A", mkWorkerNode "A" "Worker A" NodeStatus.busy)]
    tasks := [("T9", mkTaskFixture "T9" TaskStatus.running
      MigrationType.strong (some "A") (some "task-code"))]
    pendingCheckpoints := []
    nodeStatsHistory := [("A", [c9Stats 1000, c9Stats 2000, c9Stats 3000,
      c9Stats 4000, c9Stats 5000])]
    registry := emptyRegistry }

/-- Fixture for the C9 witness: like `c9State` but with an online worker
`B` available as migration target. -/
def c9WitnessState : CoordinatorState :=
  { nodes := [("A", mkWorkerNode "A" "Worker A" NodeStatus.busy),
              ("B", mkWorkerNode "B" "Worker B" NodeStatus.online)]
    tasks := [("T9", mkTaskFixture "T9" TaskStatus.running
      MigrationType.strong (some "A") (some "task-code"))]
    pendingCheckpoints := []
    nodeStatsHistory := [("A", [c9Stats 1000, c9Stats 2000, c9Stats 3000,
      c9Stats 4000, c9Stats 5000])]
    registry := emptyRegistry }

/-- Fixture for C10: a state with a pending waiter for `T10`. -/
def c10State : CoordinatorState :=
  { nodes := [], tasks := [], pendingCheckpoints := ["T10"]
    nodeStatsHistory := [], registry := emptyRegistry }

/-- Fixture for C10: a checkpoint for `T10` whose declared checksum
mismatches the recomputed one. -/
def c10Checkpoint : ExecutionCheckpoint :=
  { id := "cp10", taskId := "T10", currentStep := 4, totalSteps := 10
    vars := [("current", "4")], sourceNodeId := "A", createdAt := 0
    checksum := some "tampered" }

/-! ## Lemmas about the association-list map -/

theorem mapGet_mapSet_self {α : Type} (m : List (String × α)) (k : String)
    (v : α) : mapGet (mapSet m k v) k = some v := by
  induction m with
  | nil => simp [mapGet, mapSet]
  | cons p ps ih =>
    by_cases h : p.1 = k
    · simp [mapSet, mapGet, h]
    · simp [mapSet, mapGet, h, ih]

theorem mapGet_mapSet_ne {α : Type} (m : List (String × α)) {k k' : String}
    (v : α) (h : k' ≠ k) : mapGet (mapSet m k v) k' = mapGet m k' := by
  have hk' : ¬(k = k') := fun hk => h hk.symm
  induction m with
  | nil => simp only [mapSet, mapGet, if_neg hk']
  | cons p ps ih =>
    by_cases hp : p.1 = k
    · have hpk' : ¬(p.1 = k') := fun hk => h (hk.symm.trans hp)
      simp only [mapSet, if_pos hp, mapGet, if_neg hk', if_neg hpk']
    · simp only [mapSet, if_neg hp, mapGet]
      by_cases hp' : p.1 = k'
      · rw [if_pos hp', if_pos hp']
      · rw [if_neg hp', if_neg hp', ih]

theorem mapGet_mem {α : Type} {m : List (String × α)} {k : String} {v : α}
    (h : mapGet m k = some v) : (k, v) ∈ m := by
  induction m with
  | nil => simp [mapGet] at h
  | cons p ps ih =>
    obtain ⟨a, b⟩ := p
    by_cases ha : a = k
    · simp [mapGet, ha] at h
      simp [ha, h]
    · simp [mapGet, ha] at h
      exact List.mem_cons_of_mem _ (ih h)

theorem mem_mapSet {α : Type} {m : List (String × α)} {k : String} {v : α}
    {p : String × α} (h : p ∈ mapSet m k v) : p = (k, v) ∨ p ∈ m := by
  induction m with
  | nil => simp [mapSet] at h; simp [h]
  | cons q qs ih =>
    by_cases hq : q.1 = k
    · simp [mapSet, hq] at h
      rcases h with h | h
      · exact Or.inl h
      · exact Or.inr (List.mem_cons_of_mem _ h)
    · simp [mapSet, hq] at h
      rcases h with h | h
      · exact Or.inr (by simp [h])
      · rcases ih h with h1 | h1
        · exact Or.inl h1
        · exact Or.inr (List.mem_cons_of_mem _ h1)

theorem mem_keys_mapSet {α : Type} {m : List (String × α)} {k a : String}
    {v : α} (h : a ∈ (mapSet m k v).map Prod.fst) :
    a ∈ m.map Prod.fst ∨ a = k := by
  rcases List.mem_map.mp h with ⟨p, hp, hpa⟩
  rcases mem_mapSet hp with h1 | h1
  · right; rw [← hpa, h1]
  · left; exact List.mem_map.mpr ⟨p, h1, hpa⟩

theorem nodup_keys_mapSet {α : Type} {m : List (String × α)} (k : String)
    (v : α) (h : (m.map Prod.fst).Nodup) :
    ((mapSet m k v).map Prod.fst).Nodup := by
  induction m with
  | nil => simp [mapSet]
  | cons q qs ih =>
    simp only [List.map_cons, List.nodup_cons] at h
    by_cases hq : q.1 = k
    · simp only [mapSet, if_pos hq, List.map_cons, List.nodup_cons]
      exact ⟨hq ▸ h.1, h.2⟩
    · simp only [mapSet, if_neg hq, List.map_cons, List.nodup_cons]
      refine ⟨fun hmem => ?_, ih h.2⟩
      rcases mem_keys_mapSet hmem with h1 | h1
      · exact h.1 h1
      · exact hq h1

theorem mapGet_of_mem_nodup {α : Type} {m : List (String × α)} {k : String}
    {v : α} (hnd : (m.map Prod.fst).Nodup) (h : (k, v) ∈ m) :
    mapGet m k = some v := by
  induction m with
  | nil => simp at h
  | cons q qs ih =>
    obtain ⟨a, b⟩ := q
    simp only [List.map_cons, List.nodup_cons] at hnd
    rcases List.mem_cons.mp h with h1 | h1
    · rw [show a = k from (Prod.mk.injEq .. ▸ h1.symm).1,
        show b = v from (Prod.mk.injEq .. ▸ h1.symm).2]
      simp [mapGet]
    · by_cases hak : a = k
      · exact absurd (hak ▸ List.mem_map.mpr ⟨(k, v), h1, rfl⟩) hnd.1
      · simp only [mapGet, if_neg hak]
        exact ih hnd.2 h1

/-! ## Shared helper lemmas about the handlers -/

theorem saveCheckpoint_spec (r : CodeRegistry) (cp : ExecutionCheckpoint) :
    getCheckpointHistory (saveCheckpoint r cp) cp.taskId =
      getCheckpointHistory r cp.taskId ++ [cp] ∧
    getLatestCheckpoint (saveCheckpoint r cp) cp.taskId = some cp := by
  cases h : mapGet r.checkpoints cp.taskId with
  | none =>
    simp [saveCheckpoint, getCheckpointHistory, getLatestCheckpoint, h,
      mapGet_mapSet_self]
  | some l =>
    simp [saveCheckpoint, getCheckpointHistory, getLatestCheckpoint, h,
      mapGet_mapSet_self]

theorem checkpointWaitTimeout_tasks (s : CoordinatorState) (t : String) :
    (checkpointWaitTimeout s t).1.tasks = s.tasks := by
  unfold checkpointWaitTimeout
  split <;> rfl

theorem checkpointWaitTimeout_effects (s : CoordinatorState) (t : String) :
    (checkpointWaitTimeout s t).2 = [] ∨
    (checkpointWaitTimeout s t).2 =
      [Effect.waiterRejected t "Timeout waiting for checkpoint (5000ms)"] := by
  unfold checkpointWaitTimeout
  split
  · exact Or.inr rfl
  · exact Or.inl rfl

theorem handleMigrationRequestPrepare_spec (s : CoordinatorState)
    (d : MigrationRequestData) (now : Nat) (task : Task)
    (src tgt : ConnectedNode)
    (ht : mapGet s.tasks d.taskId = some task)
    (hs : mapGet s.nodes d.sourceNodeId = some src)
    (htg : mapGet s.nodes d.targetNodeId = some tgt) :
    (handleMigrationRequestPrepare s d now).effects =
      [Effect.taskPause d.sourceNodeId d.taskId
        (decide (d.migrationType = MigrationType.strong))] ∧
    mapGet (handleMigrationRequestPrepare s d now).state.tasks d.taskId =
      some { task with status := TaskStatus.migrating } ∧
    (handleMigrationRequestPrepare s d now).state.nodeStatsHistory =
      s.nodeStatsHistory := by
  simp only [handleMigrationRequestPrepare, ht, hs, htg]
  cases hc : task.customCode with
  | some cc =>
    simp only
    split <;> simp [mapGet_mapSet_self]
  | none =>
    cases hg : getBundle s.registry "counting-task" with
    | none => simp [mapGet_mapSet_self]
    | some b =>
      simp only
      split <;> simp [mapGet_mapSet_self]

/-! ## Claim C3 -/

/-- C3, counterexample: with a checkpoint at `currentStep = 5` the counting
template executes steps `[5, …, 10]` — it resumes at step 5, not 6, so the
step `checkpoint.currentStep` is executed again, refuting the claim that
execution resumes at `checkpoint.currentStep + 1` and that no step up to
and including `checkpoint.currentStep` runs again. -/
theorem C3_counterexample :
    c3Checkpoint.currentStep = 5 ∧
    countingTaskExecutedSteps 1 10 (some c3Checkpoint) =
      [5, 6, 7, 8, 9, 10] ∧
    5 ∈ countingTaskExecutedSteps 1 10 (some c3Checkpoint) := by
  decide

/-- C3 (corrected): a task reassigned with a non-null checkpoint resumes at
`checkpoint.currentStep`, not at `checkpoint.currentStep + 1`: the runtime
initialises its step counter to `checkpoint.currentStep`, and for any
resumption with `0 < currentStep ≤ endAt` the counting template executes
exactly the steps `currentStep, …, endAt`, so the step
`checkpoint.currentStep` itself is executed again. -/
theorem C3_resume_at_checkpoint_step (cp : ExecutionCheckpoint)
    (startFrom endAt : Nat) (h0 : 0 < cp.currentStep)
    (hle : cp.currentStep ≤ endAt) :
    runtimeInitialStep (some cp) = cp.currentStep ∧
    countingTaskExecutedSteps startFrom endAt (some cp) =
      List.range' cp.currentStep (endAt + 1 - cp.currentStep) ∧
    (countingTaskExecutedSteps startFrom endAt (some cp)).head? =
      some cp.currentStep := by
  have hne : cp.currentStep ≠ 0 := Nat.pos_iff_ne_zero.mp h0
  have hres : countingTaskResumeStep (some cp) startFrom = cp.currentStep := by
    simp [countingTaskResumeStep, hne]
  refine ⟨rfl, ?_, ?_⟩
  · simp [countingTaskExecutedSteps, hres]
  · obtain ⟨m, hm⟩ : ∃ m, endAt + 1 - cp.currentStep = m + 1 :=
      ⟨endAt - cp.currentStep, by omega⟩
    simp [countingTaskExecutedSteps, hres, hm, List.range'_succ]

/-- C3, witness: the corrected statement evaluated at the step-5 fixture
checkpoint. -/
theorem C3_witness :
    runtimeInitialStep (some c3Checkpoint) = c3Checkpoint.currentStep ∧
    countingTaskExecutedSteps 1 10 (some c3Checkpoint) =
      List.range' c3Checkpoint.currentStep (10 + 1 - c3Checkpoint.currentStep) ∧
    (countingTaskExecutedSteps 1 10 (some c3Checkpoint)).head? =
      some c3Checkpoint.currentStep :=
  C3_resume_at_checkpoint_step c3Checkpoint 1 10 (by decide) (by decide)

/-! ## Claim C4 -/

/-- C4, counterexample: a checkpoint that carries no checksum at all
resolves the pending waiter for its task, refuting the claim that a
checkpoint without a valid checksum never resolves the waiter. -/
theorem C4_counterexample :
    "T4" ∈ c4State.pendingCheckpoints ∧
    c4Checkpoint.checksum = none ∧
    (handleCheckpointSaved c4State c4Checkpoint).2 =
      [Effect.waiterResolved "T4" c4Checkpoint,
       Effect.broadcastCheckpointSaved c4Checkpoint] := by
  decide

/-- C4 (corrected): for a registered pending waiter, `checkpoint:saved`
with a matching `taskId` resolves the waiter whenever the checkpoint
carries no checksum, an empty checksum, or a checksum equal to the
recomputed one; it rejects the waiter exactly when a non-empty declared
checksum differs from the recomputed one. -/
theorem C4_waiter_resolution (s : CoordinatorState)
    (cp : ExecutionCheckpoint) (hp : cp.taskId ∈ s.pendingCheckpoints) :
    ((cp.checksum = none ∨ cp.checksum = some "" ∨
        cp.checksum = some (calculateCheckpointChecksum cp)) →
      (handleCheckpointSaved s cp).2 =
        [Effect.waiterResolved cp.taskId cp,
         Effect.broadcastCheckpointSaved cp]) ∧
    (∀ c, cp.checksum = some c → c ≠ "" →
      c ≠ calculateCheckpointChecksum cp →
      (handleCheckpointSaved s cp).2 =
        [Effect.waiterRejected cp.taskId
           "Checkpoint Checksum Mismatch (Data Corruption)"]) := by
  constructor
  · intro hcs
    rcases hcs with h | h | h <;> simp [handleCheckpointSaved, hp, h]
  · intro c hc hne hmm
    simp [handleCheckpointSaved, hp, hc, hne, hmm]

/-- C4, witness: the corrected statement's rejection branch evaluated at a
checkpoint whose declared checksum `bogus` mismatches the recomputed
one. -/
theorem C4_witness :
    (handleCheckpointSaved c4WitnessState c4WitnessCheckpoint).2 =
      [Effect.waiterRejected "T4w"
         "Checkpoint Checksum Mismatch (Data Corruption)"] :=
  (C4_waiter_resolution c4WitnessState c4WitnessCheckpoint (by decide)).2
    "bogus" rfl (by decide) (by decide)

/-! ## Claim C6 -/

/-- C6, counterexample: `CodeRegistry.import` stores bundles without
verification, so a bundle whose declared checksum `deadbeef` differs from
the content hash of its code is retrievable through `getBundle`, refuting
the claim for bundles that entered the registry via import. -/
theorem C6_counterexample :
    getBundle c6Registry "bad" = some c6BadBundle ∧
    generateChecksum c6BadBundle.code ≠ c6BadBundle.checksum := by
  decide

/-- C6 (corrected): the integrity contract holds for every bundle that
entered the registry through the default-bundle initialisation or through
`registerBundle` (both compute the stored checksum with
`generateChecksum`), but not in general for `import`, which stores bundles
unverified. -/
theorem C6_integrity_register_and_init
    (id1 id2 tmpl1 tmpl2 freshId name code desc : String) (now now' : Nat)
    (r : CodeRegistry) (hr : RegistryIntegrity r) :
    RegistryIntegrity (initDefaultBundles id1 id2 tmpl1 tmpl2 now) ∧
    RegistryIntegrity (registerBundle r freshId name code desc now') := by
  constructor
  · intro s b h
    simp only [initDefaultBundles, getBundle, createCodeBundle] at h
    by_cases e1 : s = "sum-task"
    · subst e1; rw [mapGet_mapSet_self] at h
      injection h with h'; subst h'; rfl
    · rw [mapGet_mapSet_ne _ _ e1] at h
      by_cases e2 : s = id2
      · subst e2; rw [mapGet_mapSet_self] at h
        injection h with h'; subst h'; rfl
      · rw [mapGet_mapSet_ne _ _ e2] at h
        by_cases e3 : s = "counting-task"
        · subst e3; rw [mapGet_mapSet_self] at h
          injection h with h'; subst h'; rfl
        · rw [mapGet_mapSet_ne _ _ e3] at h
          by_cases e4 : s = id1
          · subst e4; rw [mapGet_mapSet_self] at h
            injection h with h'; subst h'; rfl
          · rw [mapGet_mapSet_ne _ _ e4] at h
            simp [mapGet] at h
  · intro s b h
    simp only [registerBundle, getBundle, createCodeBundle] at h
    by_cases e1 : s = name
    · subst e1; rw [mapGet_mapSet_self] at h
      injection h with h'; subst h'; rfl
    · rw [mapGet_mapSet_ne _ _ e1] at h
      by_cases e2 : s = freshId
      · subst e2; rw [mapGet_mapSet_self] at h
        injection h with h'; subst h'; rfl
      · rw [mapGet_mapSet_ne _ _ e2] at h
        exact hr s b h

/-- C6, witness: the corrected statement applied to a concrete registry
(default init then one `registerBundle`), evaluated at the freshly
registered bundle. -/
theorem C6_witness :
    generateChecksum (createCodeBundle "f" "n" "x" "d" 1).code =
      (createCodeBundle "f" "n" "x" "d" 1).checksum :=
  (C6_integrity_register_and_init "a" "b" "tc" "ts" "f" "n" "x" "d" 0 1
    (initDefaultBundles "a" "b" "tc" "ts" 0)
    (C6_integrity_register_and_init "a" "b" "tc" "ts" "f" "n" "x" "d" 0 1
      emptyRegistry
      (fun s b h => by simp [getBundle, emptyRegistry, mapGet] at h)).1).2
    "n" (createCodeBundle "f" "n" "x" "d" 1) (by decide)

/-! ## Claim C7 -/

/-- C7, counterexample: after saving a checkpoint at step 5 and then one at
step 3 for the same task, the registry holds the non-monotone history
`[step 5, step 3]` and `getLatestCheckpoint` went backwards to step 3,
refuting the claimed monotonicity invariant. -/
theorem C7_counterexample :
    getCheckpointHistory c7Registry "T7" = [c7Cp1, c7Cp2] ∧
    getLatestCheckpoint c7Registry "T7" = some c7Cp2 ∧
    c7Cp2.currentStep < c7Cp1.currentStep := by
  decide

/-- C7 (corrected): the registry enforces no monotonicity —
`saveCheckpoint` appends each checkpoint verbatim to the task's history and
makes it the latest, even when its `currentStep` is lower than the previous
latest; successive registry checkpoints are nondecreasing only when the
saves themselves were. -/
theorem C7_history_records_saves (r : CodeRegistry)
    (c1 c2 : ExecutionCheckpoint) (t : String) (h1 : c1.taskId = t)
    (h2 : c2.taskId = t) :
    getCheckpointHistory (saveCheckpoint (saveCheckpoint r c1) c2) t =
      getCheckpointHistory r t ++ [c1, c2] ∧
    getLatestCheckpoint (saveCheckpoint (saveCheckpoint r c1) c2) t =
      some c2 := by
  subst h1
  have ha := (saveCheckpoint_spec (saveCheckpoint r c1) c2).1
  have hl := (saveCheckpoint_spec (saveCheckpoint r c1) c2).2
  have hb := (saveCheckpoint_spec r c1).1
  rw [h2] at ha hl
  rw [ha, hb]
  exact ⟨by simp, hl⟩

/-- C7, witness: the corrected statement evaluated at the two fixture
checkpoints (steps 5 then 3). -/
theorem C7_witness :
    getCheckpointHistory (saveCheckpoint (saveCheckpoint emptyRegistry c7Cp1)
        c7Cp2) "T7" =
      getCheckpointHistory emptyRegistry "T7" ++ [c7Cp1, c7Cp2] ∧
    getLatestCheckpoint (saveCheckpoint (saveCheckpoint emptyRegistry c7Cp1)
        c7Cp2) "T7" = some c7Cp2 :=
  C7_history_records_saves emptyRegistry c7Cp1 c7Cp2 "T7" rfl rfl

/-! ## Claim C10 -/

/-- C10 (confirmed): `handleCheckpointSaved` persists every arriving
checkpoint into the registry before any checksum validation: even for a
checkpoint whose non-empty declared checksum mismatches the recomputed one,
the checkpoint is appended to the task's history, becomes the checkpoint
`getLatestCheckpoint` returns to the recovery path, and the pending waiter
for the task is rejected. -/
theorem C10_mismatched_checkpoint_persisted (s : CoordinatorState)
    (cp : ExecutionCheckpoint) (hp : cp.taskId ∈ s.pendingCheckpoints)
    (c : String) (hc : cp.checksum = some c) (hne : c ≠ "")
    (hmm : c ≠ calculateCheckpointChecksum cp) :
    getCheckpointHistory (handleCheckpointSaved s cp).1.registry cp.taskId =
      getCheckpointHistory s.registry cp.taskId ++ [cp] ∧
    getLatestCheckpoint (handleCheckpointSaved s cp).1.registry cp.taskId =
      some cp ∧
    (handleCheckpointSaved s cp).2 =
      [Effect.waiterRejected cp.taskId
         "Checkpoint Checksum Mismatch (Data Corruption)"] := by
  have hreg : (handleCheckpointSaved s cp).1.registry =
      saveCheckpoint s.registry cp := by
    simp [handleCheckpointSaved, hp, hc, hne, hmm]
  refine ⟨?_, ?_, ?_⟩
  · rw [hreg]; exact (saveCheckpoint_spec s.registry cp).1
  · rw [hreg]; exact (saveCheckpoint_spec s.registry cp).2
  · simp [handleCheckpointSaved, hp, hc, hne, hmm]

/-- C10, witness: the statement evaluated at a checkpoint whose declared
checksum `tampered` mismatches the recomputed one while a waiter for `T10`
is pending. -/
theorem C10_witness :
    getCheckpointHistory (handleCheckpointSaved c10State c10Checkpoint).1.registry
        "T10" =
      getCheckpointHistory c10State.registry "T10" ++ [c10Checkpoint] ∧
    getLatestCheckpoint (handleCheckpointSaved c10State c10Checkpoint).1.registry
        "T10" = some c10Checkpoint ∧
    (handleCheckpointSaved c10State c10Checkpoint).2 =
      [Effect.waiterRejected "T10"
         "Checkpoint Checksum Mismatch (Data Corruption)"] :=
  C10_mismatched_checkpoint_persisted c10State c10Checkpoint (by decide)
    "tampered" rfl (by decide) (by decide)

/-! ## Claim C1 -/

/-- C1, counterexample: task `T1` is already in status `migrating`, yet the
migration request is not rejected — `handleMigrationRequest` emits
`task:pause` to the source again, refuting the claim that a further
migration request naming a migrating task is rejected without side
effects. -/
theorem C1_counterexample :
    (mapGet c1State.tasks "T1").map Task.status =
      some TaskStatus.migrating ∧
    (handleMigrationRequestPrepare c1State c1Request 0).effects =
      [Effect.taskPause "A" "T1" true] := by
  decide

/-- C1 (corrected): a migration request for a task already in `migrating`
is processed like any other: `handleMigrationRequest` never consults
`task.status`, so whenever the task and both node ids are registered it
sends `task:pause` to the source again (with a snapshot demand for strong
requests) and rewrites the status to `migrating`; only a missing task or a
missing node causes a return without state change or message. -/
theorem C1_second_request_processed (s : CoordinatorState)
    (d : MigrationRequestData) (now : Nat) (task : Task)
    (ht : mapGet s.tasks d.taskId = some task)
    (hmig : task.status = TaskStatus.migrating)
    (src tgt : ConnectedNode)
    (hs : mapGet s.nodes d.sourceNodeId = some src)
    (htg : mapGet s.nodes d.targetNodeId = some tgt) :
    (handleMigrationRequestPrepare s d now).effects =
      [Effect.taskPause d.sourceNodeId d.taskId
        (decide (d.migrationType = MigrationType.strong))] ∧
    mapGet (handleMigrationRequestPrepare s d now).state.tasks d.taskId =
      some { task with status := TaskStatus.migrating } := by
  obtain ⟨he, htk, _⟩ :=
    handleMigrationRequestPrepare_spec s d now task src tgt ht hs htg
  exact ⟨he, htk⟩

/-- C1, witness: the corrected statement evaluated at the fixture with
`T1` already migrating. -/
theorem C1_witness :
    (handleMigrationRequestPrepare c1State c1Request 0).effects =
      [Effect.taskPause c1Request.sourceNodeId c1Request.taskId
        (decide (c1Request.migrationType = MigrationType.strong))] ∧
    mapGet (handleMigrationRequestPrepare c1State c1Request 0).state.tasks
        c1Request.taskId =
      some { mkTaskFixture "T1" TaskStatus.migrating MigrationType.strong
        (some "A") (some "task-code") with status := TaskStatus.migrating } :=
  C1_second_request_processed c1State c1Request 0
    (mkTaskFixture "T1" TaskStatus.migrating MigrationType.strong
      (some "A") (some "task-code"))
    (by decide) (by decide)
    (mkWorkerNode "A" "Worker A" NodeStatus.busy)
    (mkWorkerNode "B" "Worker B" NodeStatus.online)
    (by decide) (by decide)

/-! ## Claim C2 -/

/-- C2, counterexample: task `T2` starts as `running` on the still
registered source, but after the AWAIT_SNAPSHOT failure (checkpoint-wait
timeout) its status is still `migrating` — the coordinator does not revert
it to `running`, refuting the claim. -/
theorem C2_counterexample :
    (mapGet c2State.tasks "T2").map Task.status = some TaskStatus.running ∧
    (mapGet c2Aborted.nodes "A").isSome = true ∧
    (mapGet c2Aborted.tasks "T2").map Task.status =
      some TaskStatus.migrating := by
  decide

/-- C2 (corrected): when the AWAIT_SNAPSHOT phase of a strong migration
fails, the transaction aborts with no `task:assign` ever sent, but the
coordinator does not revert `task.status`: the task is left in status
`migrating` (its `currentNodeId` and `progress` keeping their
pre-migration values, as the prepare phase only rewrites the status). -/
theorem C2_abort_leaves_migrating (s : CoordinatorState)
    (d : MigrationRequestData) (now : Nat) (task : Task)
    (ht : mapGet s.tasks d.taskId = some task)
    (src tgt : ConnectedNode)
    (hs : mapGet s.nodes d.sourceNodeId = some src)
    (htg : mapGet s.nodes d.targetNodeId = some tgt) :
    mapGet (checkpointWaitTimeout
        (handleMigrationRequestPrepare s d now).state d.taskId).1.tasks
      d.taskId = some { task with status := TaskStatus.migrating } ∧
    (∀ e ∈ (handleMigrationRequestPrepare s d now).effects ++
        (checkpointWaitTimeout
          (handleMigrationRequestPrepare s d now).state d.taskId).2,
      ∀ n tid cpOpt, e ≠ Effect.taskAssign n tid cpOpt) := by
  obtain ⟨he, htk, _⟩ :=
    handleMigrationRequestPrepare_spec s d now task src tgt ht hs htg
  constructor
  · rw [checkpointWaitTimeout_tasks]; exact htk
  · intro e he' n tid cpOpt
    rcases List.mem_append.mp he' with h1 | h1
    · rw [he] at h1; simp at h1; subst h1; simp
    · rcases checkpointWaitTimeout_effects
          (handleMigrationRequestPrepare s d now).state d.taskId with
        h2 | h2 <;> rw [h2] at h1
      · simp at h1
      · simp at h1; subst h1; simp

/-- C2, witness: the corrected statement's state part evaluated at the
fixture abort run (task `T2`, strong migration, snapshot timeout). -/
theorem C2_witness :
    mapGet (checkpointWaitTimeout
        (handleMigrationRequestPrepare c2State c2Request 0).state
        c2Request.taskId).1.tasks c2Request.taskId =
      some { mkTaskFixture "T2" TaskStatus.running MigrationType.strong
        (some "A") (some "task-code") with status := TaskStatus.migrating } :=
  (C2_abort_leaves_migrating c2State c2Request 0
    (mkTaskFixture "T2" TaskStatus.running MigrationType.strong
      (some "A") (some "task-code"))
    (by decide)
    (mkWorkerNode "A" "Worker A" NodeStatus.busy)
    (mkWorkerNode "B" "Worker B" NodeStatus.online)
    (by decide) (by decide)).1

/-! ## Claim C5 -/

/-- C5, counterexample: the request names node `A` as both source and
target and the task is owned by node `B`, so the PREPARE preconditions
"source owns the task" and "source and target are distinct" both fail; yet
`handleMigrationRequest` sends `task:pause` to `A` and sets the task's
status to `migrating`, refuting the claim. -/
theorem C5_counterexample :
    c5Request.sourceNodeId = c5Request.targetNodeId ∧
    (mapGet c5State.tasks "T5").bind Task.currentNodeId = some "B" ∧
    (handleMigrationRequestPrepare c5State c5Request 0).effects =
      [Effect.taskPause "A" "T5" false] ∧
    (mapGet (handleMigrationRequestPrepare c5State c5Request 0).state.tasks
        "T5").map Task.status = some TaskStatus.migrating := by
  decide

/-- C5 (corrected): `handleMigrationRequest` checks only that the task
exists and that both node ids are registered; it never checks ownership,
distinctness of source and target, or their online status.  When the task
or a node is missing it returns with no state change and no message; when
all three exist it sends `task:pause` and sets `task.status = migrating`
(before the code bundle is even resolved). -/
theorem C5_prepare_preconditions (s : CoordinatorState)
    (d : MigrationRequestData) (now : Nat) :
    (mapGet s.tasks d.taskId = none →
      handleMigrationRequestPrepare s d now = ⟨s, [], none⟩) ∧
    (∀ task, mapGet s.tasks d.taskId = some task →
      (mapGet s.nodes d.sourceNodeId = none ∨
        mapGet s.nodes d.targetNodeId = none) →
      handleMigrationRequestPrepare s d now = ⟨s, [], none⟩) ∧
    (∀ task src tgt, mapGet s.tasks d.taskId = some task →
      mapGet s.nodes d.sourceNodeId = some src →
      mapGet s.nodes d.targetNodeId = some tgt →
      (handleMigrationRequestPrepare s d now).effects =
        [Effect.taskPause d.sourceNodeId d.taskId
          (decide (d.migrationType = MigrationType.strong))] ∧
      mapGet (handleMigrationRequestPrepare s d now).state.tasks d.taskId =
        some { task with status := TaskStatus.migrating }) := by
  refine ⟨?_, ?_, ?_⟩
  · intro h
    simp [handleMigrationRequestPrepare, h]
  · intro task ht h
    cases hsrc : mapGet s.nodes d.sourceNodeId with
    | none =>
      cases htgt : mapGet s.nodes d.targetNodeId with
      | none => simp [handleMigrationRequestPrepare, ht, hsrc, htgt]
      | some w => simp [handleMigrationRequestPrepare, ht, hsrc, htgt]
    | some w =>
      cases htgt : mapGet s.nodes d.targetNodeId with
      | none => simp [handleMigrationRequestPrepare, ht, hsrc, htgt]
      | some w2 =>
        rcases h with h | h
        · rw [hsrc] at h; simp at h
        · rw [htgt] at h; simp at h
  · intro task src tgt ht hs htg
    obtain ⟨he, htk, _⟩ :=
      handleMigrationRequestPrepare_spec s d now task src tgt ht hs htg
    exact ⟨he, htk⟩

/-- C5, witness: the corrected statement's positive part evaluated at the
fixture request whose source equals its target and does not own the
task. -/
theorem C5_witness :
    (handleMigrationRequestPrepare c5State c5Request 0).effects =
      [Effect.taskPause c5Request.sourceNodeId c5Request.taskId
        (decide (c5Request.migrationType = MigrationType.strong))] ∧
    mapGet (handleMigrationRequestPrepare c5State c5Request 0).state.tasks
        c5Request.taskId =
      some { mkTaskFixture "T5" TaskStatus.running MigrationType.weak
        (some "B") (some "task-code") with status := TaskStatus.migrating } :=
  (C5_prepare_preconditions c5State c5Request 0).2.2
    (mkTaskFixture "T5" TaskStatus.running MigrationType.weak
      (some "B") (some "task-code"))
    (mkWorkerNode "A" "Worker A" NodeStatus.online)
    (mkWorkerNode "A" "Worker A" NodeStatus.online)
    (by decide) (by decide) (by decide)

/-! ## Claim C9 -/

/-- C9, counterexample: node `A` has all five expected window samples at
95 % CPU and a `running` task, so the claim's trigger condition holds, yet
no migration is initiated and the history is not cleared — because no
online worker other than `A` exists; the claim omits that requirement. -/
theorem C9_counterexample :
    (mapGet c9State.nodeStatsHistory "A").map List.length = some 5 ∧
    ((mapGet c9State.nodeStatsHistory "A").getD []).all
      (fun st =>
        decide (DEFAULT_CONFIG.AUTO_MIGRATION_CPU_THRESHOLD < st.cpuUsage)) =
      true ∧
    (mapGet c9State.tasks "T9").map Task.status = some TaskStatus.running ∧
    (mapGet c9State.tasks "T9").bind Task.currentNodeId = some "A" ∧
    checkAutoMigration c9State "A" 5000 =
      ⟨c9State, [], none⟩ := by
  decide

/-- C9 (corrected): the auto-migration detector triggers exactly when, in
addition to the claim's conditions (at least 80 % of the expected samples
in the trailing window, every one strictly above the CPU threshold, and a
`running` task bound to the node), an online worker other than the node
exists; then a strong migration of that task to that worker is initiated
(`task:pause` with a snapshot demand is sent to the registered source) and
the node's stats history is cleared.  If the window has too few samples or
any sample at or below the threshold, nothing happens. -/
theorem C9_trigger_characterization (s : CoordinatorState)
    (nodeId : String) (now : Nat) (history : List NodeStats)
    (hh : mapGet s.nodeStatsHistory nodeId = some history) :
    (((history.filter (fun st =>
          decide (now - DEFAULT_CONFIG.AUTO_MIGRATION_DURATION_MS ≤
            st.timestamp))).length * 5 <
        (DEFAULT_CONFIG.AUTO_MIGRATION_DURATION_MS /
          DEFAULT_CONFIG.HEARTBEAT_INTERVAL) * 4 ∨
      ∃ st ∈ history.filter (fun st =>
          decide (now - DEFAULT_CONFIG.AUTO_MIGRATION_DURATION_MS ≤
            st.timestamp)),
        st.cpuUsage ≤ DEFAULT_CONFIG.AUTO_MIGRATION_CPU_THRESHOLD) →
      checkAutoMigration s nodeId now = ⟨s, [], none⟩) ∧
    (∀ k rt wk w task src tgt,
      ¬((history.filter (fun st =>
            decide (now - DEFAULT_CONFIG.AUTO_MIGRATION_DURATION_MS ≤
              st.timestamp))).length * 5 <
          (DEFAULT_CONFIG.AUTO_MIGRATION_DURATION_MS /
            DEFAULT_CONFIG.HEARTBEAT_INTERVAL) * 4) →
      (∀ st ∈ history.filter (fun st =>
          decide (now - DEFAULT_CONFIG.AUTO_MIGRATION_DURATION_MS ≤
            st.timestamp)),
        DEFAULT_CONFIG.AUTO_MIGRATION_CPU_THRESHOLD < st.cpuUsage) →
      s.tasks.find? (fun p =>
          decide (p.2.currentNodeId = some nodeId ∧
            p.2.status = TaskStatus.running)) = some (k, rt) →
      findAutoMigrationTarget s.nodes nodeId = some (wk, w) →
      mapGet s.tasks rt.id = some task →
      mapGet s.nodes nodeId = some src →
      mapGet s.nodes w.info.id = some tgt →
      (checkAutoMigration s nodeId now).triggered =
        some (rt.id, w.info.id) ∧
      mapGet (checkAutoMigration s nodeId now).state.nodeStatsHistory
        nodeId = some [] ∧
      (checkAutoMigration s nodeId now).effects =
        [Effect.taskPause nodeId rt.id true]) := by
  constructor
  · intro hbad
    simp only [checkAutoMigration, hh]
    split
    · rfl
    · rename_i hfew
      rcases hbad with h | h
      · exact absurd h hfew
      · have hallf : (history.filter (fun st =>
            decide (now - DEFAULT_CONFIG.AUTO_MIGRATION_DURATION_MS ≤
              st.timestamp))).all (fun st =>
            decide (DEFAULT_CONFIG.AUTO_MIGRATION_CPU_THRESHOLD <
              st.cpuUsage)) = false := by
          obtain ⟨st, hmem, hle⟩ := h
          rw [Bool.eq_false_iff]
          intro hall
          have := List.all_eq_true.mp hall st hmem
          rw [decide_eq_true_eq] at this
          exact absurd this (not_lt.mpr hle)
        rw [hallf]
        rfl
  · intro k rt wk w task src tgt henough hover hfind htarget htask hsrc htgt
    obtain ⟨he, _, hhist⟩ := handleMigrationRequestPrepare_spec s
      ⟨rt.id, nodeId, w.info.id, MigrationType.strong⟩ now task src tgt
      htask hsrc htgt
    have hallt : (history.filter (fun st =>
        decide (now - DEFAULT_CONFIG.AUTO_MIGRATION_DURATION_MS ≤
          st.timestamp))).all (fun st =>
        decide (DEFAULT_CONFIG.AUTO_MIGRATION_CPU_THRESHOLD <
          st.cpuUsage)) = true := by
      rw [List.all_eq_true]
      intro st hmem
      rw [decide_eq_true_eq]
      exact hover st hmem
    simp only [checkAutoMigration, hh]
    rw [if_neg henough, hallt]
    simp only [if_true, hfind, htarget]
    refine ⟨?_, ?_, ?_⟩
    · trivial
    · simp only [hhist, mapGet_mapSet_self]
    · rw [he]
      rfl

/-- C9, witness: the corrected statement evaluated at the fixture where
worker `B` is online: the migration of `T9` to `B` is initiated and `A`'s
history is cleared. -/
theorem C9_witness :
    (checkAutoMigration c9WitnessState "A" 5000).triggered =
      some ("T9", (mkWorkerNode "B" "Worker B" NodeStatus.online).info.id) ∧
    mapGet (checkAutoMigration c9WitnessState "A" 5000).state.nodeStatsHistory
      "A" = some [] ∧
    (checkAutoMigration c9WitnessState "A" 5000).effects =
      [Effect.taskPause "A" "T9" true] :=
  (C9_trigger_characterization c9WitnessState "A" 5000
    [c9Stats 1000, c9Stats 2000, c9Stats 3000, c9Stats 4000, c9Stats 5000]
    (by decide)).2
    "T9"
    (mkTaskFixture "T9" TaskStatus.running MigrationType.strong
      (some "A") (some "task-code"))
    "B" (mkWorkerNode "B" "Worker B" NodeStatus.online)
    (mkTaskFixture "T9" TaskStatus.running MigrationType.strong
      (some "A") (some "task-code"))
    (mkWorkerNode "A" "Worker A" NodeStatus.busy)
    (mkWorkerNode "B" "Worker B" NodeStatus.online)
    (by decide) (by decide) (by decide) (by decide) (by decide) (by decide)
    (by decide)

/-! ## Claim C8: recovery invariant lemmas -/

theorem mem_mapSet_nodup {α : Type} {m : List (String × α)} {k : String}
    {v : α} {p : String × α} (hnd : (m.map Prod.fst).Nodup)
    (h : p ∈ mapSet m k v) : p = (k, v) ∨ (p ∈ m ∧ p.1 ≠ k) := by
  induction m with
  | nil =>
    simp [mapSet] at h
    exact Or.inl h
  | cons q qs ih =>
    simp only [List.map_cons, List.nodup_cons] at hnd
    by_cases hq : q.1 = k
    · simp only [mapSet, if_pos hq] at h
      rcases List.mem_cons.mp h with h1 | h1
      · exact Or.inl h1
      · right
        refine ⟨List.mem_cons_of_mem _ h1, fun hpk => ?_⟩
        apply hnd.1
        rw [hq]
        exact hpk ▸ List.mem_map.mpr ⟨p, h1, rfl⟩
    · simp only [mapSet, if_neg hq] at h
      rcases List.mem_cons.mp h with h1 | h1
      · exact Or.inr ⟨by simp [h1], by rw [h1]; exact hq⟩
      · rcases ih hnd.2 h1 with h2 | h2
        · exact Or.inl h2
        · exact Or.inr ⟨List.mem_cons_of_mem _ h2.1, h2.2⟩

theorem nodesInv_mapSet {nodeId wk : String}
    {nodes : List (String × ConnectedNode)}
    (hids : ∀ p ∈ nodes, p.2.info.id = p.1)
    (hnd : (nodes.map Prod.fst).Nodup)
    (hoffm : ∀ p ∈ nodes, p.1 = nodeId → p.1 ≠ wk →
      p.2.info.status = NodeStatus.offline)
    (w' : ConnectedNode) (hid' : w'.info.id = wk)
    (hoff' : wk = nodeId → w'.info.status = NodeStatus.offline) :
    NodesInv nodeId (mapSet nodes wk w') := by
  refine ⟨?_, nodup_keys_mapSet _ _ hnd, ?_⟩
  · intro p hp
    rcases mem_mapSet hp with h1 | h1
    · rw [h1]; exact hid'
    · exact hids p h1
  · intro p hp hpk
    rcases mem_mapSet_nodup hnd hp with h1 | h1
    · rw [h1] at hpk ⊢
      exact hoff' hpk
    · exact hoffm p h1.1 hpk h1.2

theorem findAvailableWorker_target {nodeId : String}
    {nodes : List (String × ConnectedNode)} (hinv : NodesInv nodeId nodes)
    {wk : String} {w : ConnectedNode}
    (h : findAvailableWorker nodes = some (wk, w)) :
    w.info.id = wk ∧ wk ≠ nodeId ∧ mapGet nodes wk = some w := by
  have hmem := List.mem_of_find?_eq_some h
  have hp := List.find?_some h
  rw [decide_eq_true_eq] at hp
  have hid := hinv.1 _ hmem
  have hget := mapGet_of_mem_nodup hinv.2.1 hmem
  refine ⟨hid, fun he => ?_, hget⟩
  have hoff := hinv.2.2 _ hmem he
  rw [hp.2] at hoff
  cases hoff

theorem rebind_assign_shape {nodeId : String} (s : CoordinatorState)
    (k wk : String) (w : ConnectedNode) (task' : Task)
    (cpOpt : Option ExecutionCheckpoint) (now : Nat)
    (hinv : NodesInv nodeId s.nodes)
    (hget : mapGet s.nodes wk = some w)
    (hid : w.info.id = wk) (hne : wk ≠ nodeId)
    (hcur : task'.currentNodeId = some w.info.id) :
    NodesInv nodeId
      (assignTaskToNode { s with tasks := mapSet s.tasks k task' }
        k wk cpOpt now).1.nodes ∧
    (∀ k' t,
      mapGet (assignTaskToNode { s with tasks := mapSet s.tasks k task' }
        k wk cpOpt now).1.tasks k' = some t →
      (k' = k → TaskInactiveOn nodeId t) ∧
      (k' ≠ k → mapGet s.tasks k' = some t)) := by
  have hcurne : ∀ t : Task, t.currentNodeId = some w.info.id →
      TaskInactiveOn nodeId t := by
    intro t hc hcn
    exfalso
    rw [hc] at hcn
    injection hcn with h'
    exact hne (hid ▸ h')
  cases hb : getBundle s.registry "counting-task" with
  | none =>
    simp only [assignTaskToNode, hb]
    refine ⟨hinv, ?_⟩
    intro k' t h
    constructor
    · intro he; subst he
      rw [mapGet_mapSet_self] at h
      injection h with h'; subst h'
      exact hcurne _ hcur
    · intro hnek
      rwa [mapGet_mapSet_ne _ _ hnek] at h
  | some b =>
    simp only [assignTaskToNode, hb, mapGet_mapSet_self, hget]
    refine ⟨?_, ?_⟩
    · exact nodesInv_mapSet hinv.1 hinv.2.1
        (fun p hp h1 _ => hinv.2.2 p hp h1) _ hid (fun he => absurd he hne)
    · intro k' t h
      constructor
      · intro he; subst he
        rw [mapGet_mapSet_self] at h
        injection h with h'; subst h'
        exact hcurne _ rfl
      · intro hnek
        rw [mapGet_mapSet_ne _ _ hnek, mapGet_mapSet_ne _ _ hnek] at h
        exact h

theorem recoverTask_step {nodeId : String} (s : CoordinatorState)
    (k : String) (now : Nat) (hinv : NodesInv nodeId s.nodes) :
    NodesInv nodeId (recoverTask s k nodeId now).1.nodes ∧
    (∀ k' t, mapGet (recoverTask s k nodeId now).1.tasks k' = some t →
      (k' = k → TaskInactiveOn nodeId t) ∧
      (k' ≠ k → mapGet s.tasks k' = some t)) := by
  cases ht : mapGet s.tasks k with
  | none =>
    simp only [recoverTask, ht]
    refine ⟨hinv, ?_⟩
    intro k' t h
    constructor
    · intro he; subst he; rw [ht] at h; cases h
    · intro _; exact h
  | some task =>
    cases hw : findAvailableWorker s.nodes with
    | none =>
      simp only [recoverTask, ht, hw]
      refine ⟨hinv, ?_⟩
      intro k' t h
      constructor
      · intro he
        subst he
        rw [mapGet_mapSet_self] at h
        injection h with h'
        subst h'
        intro _
        exact ⟨by simp, by simp⟩
      · intro hnek
        rwa [mapGet_mapSet_ne _ _ hnek] at h
    | some pw =>
      obtain ⟨wk, w⟩ := pw
      obtain ⟨hid, hne, hget⟩ := findAvailableWorker_target hinv hw
      simp only [recoverTask, ht, hw]
      by_cases hmt : task.migrationType = MigrationType.weak
      · rw [if_pos hmt]
        simp only [performWeakRecovery]
        exact rebind_assign_shape s k wk w _ none now hinv hget hid hne rfl
      · rw [if_neg hmt]
        simp only [performStrongRecovery]
        exact rebind_assign_shape s k wk w _ _ now hinv hget hid hne rfl

theorem recoverTasks_inactive {nodeId : String} (now : Nat) :
    ∀ (ks : List String) (s : CoordinatorState),
      NodesInv nodeId s.nodes →
      (∀ k' t, mapGet s.tasks k' = some t →
        TaskInactiveOn nodeId t ∨ k' ∈ ks) →
      ∀ k' t, mapGet (recoverTasks s ks nodeId now).1.tasks k' = some t →
        TaskInactiveOn nodeId t := by
  intro ks
  induction ks with
  | nil =>
    intro s hinv hbase k' t h
    simp only [recoverTasks] at h
    rcases hbase k' t h with h1 | h1
    · exact h1
    · simp at h1
  | cons k ks ih =>
    intro s hinv hbase k' t h
    simp only [recoverTasks] at h
    obtain ⟨hinv', htasks⟩ := @recoverTask_step nodeId s k now hinv
    refine ih (recoverTask s k nodeId now).1 hinv' ?_ k' t h
    intro k2 t2 h2
    obtain ⟨hk2eq, hk2ne⟩ := htasks k2 t2 h2
    by_cases he : k2 = k
    · exact Or.inl (hk2eq he)
    · rcases hbase k2 t2 (hk2ne he) with h3 | h3
      · exact Or.inl h3
      · rcases List.mem_cons.mp h3 with h4 | h4
        · exact absurd h4 he
        · exact Or.inr h4

theorem handleNodeFailure_inactive (s : CoordinatorState) (nodeId : String)
    (now : Nat) (hinv : NodesInv nodeId s.nodes) :
    ∀ k t, mapGet (handleNodeFailure s nodeId now).1.tasks k = some t →
      TaskInactiveOn nodeId t := by
  intro k t h
  cases haff : findAffectedTasks s.tasks nodeId with
  | nil =>
    simp only [handleNodeFailure, haff] at h
    intro hcn
    by_cases hr : t.status = TaskStatus.running
    · exfalso
      have hmem : (k, t) ∈ findAffectedTasks s.tasks nodeId :=
        List.mem_filter.mpr ⟨mapGet_mem h, by simp [hcn, hr]⟩
      rw [haff] at hmem
      simp at hmem
    · by_cases hm : t.status = TaskStatus.migrating
      · exfalso
        have hmem : (k, t) ∈ findAffectedTasks s.tasks nodeId :=
          List.mem_filter.mpr ⟨mapGet_mem h, by simp [hcn, hm]⟩
        rw [haff] at hmem
        simp at hmem
      · exact ⟨hr, hm⟩
  | cons p rest =>
    obtain ⟨k0, t0⟩ := p
    simp only [handleNodeFailure, haff] at h
    refine recoverTasks_inactive now (k0 :: rest.map Prod.fst) s hinv
      ?_ k t h
    intro k' t' h'
    by_cases hact : t'.currentNodeId = some nodeId ∧
        (t'.status = TaskStatus.running ∨ t'.status = TaskStatus.migrating)
    · right
      have hmem : (k', t') ∈ findAffectedTasks s.tasks nodeId :=
        List.mem_filter.mpr ⟨mapGet_mem h', by simp [hact.1, hact.2]⟩
      rw [haff] at hmem
      rcases List.mem_cons.mp hmem with h1 | h1
      · have hk : k' = k0 := congrArg Prod.fst h1
        rw [hk]
        exact List.mem_cons_self _ _
      · exact List.mem_cons_of_mem _
          (List.mem_map.mpr ⟨(k', t'), h1, rfl⟩)
    · left
      intro hcn
      constructor
      · intro hr
        exact hact ⟨hcn, Or.inl hr⟩
      · intro hm
        exact hact ⟨hcn, Or.inr hm⟩

/-- C8, counterexample: after the heartbeat sweep declares node `A` offline
and recovery finds no replacement worker, task `T8` is marked `failed` but
its `currentNodeId` still equals the offline node `A` — refuting the claim
that no task's `currentNodeId` equals the failed node's id after recovery
completes. -/
theorem C8_counterexample :
    (mapGet (heartbeatSweepNode c8State "A" 10000).1.nodes "A").map
      (fun n => n.info.status) = some NodeStatus.offline ∧
    (mapGet (heartbeatSweepNode c8State "A" 10000).1.tasks "T8").map
      Task.status = some TaskStatus.failed ∧
    (mapGet (heartbeatSweepNode c8State "A" 10000).1.tasks "T8").bind
      Task.currentNodeId = some "A" := by
  decide

/-- C8 (corrected): after the heartbeat sweep marks a timed-out node
offline and the recovery manager finishes, no task is left `running` or
`migrating` with `currentNodeId` equal to that node: every affected task is
either rebound to an online replacement worker (whose id, being online,
differs from the offline node's) or — when no replacement is available —
marked `failed` while keeping `currentNodeId` equal to the failed node. -/
theorem C8_no_active_task_on_offline_node (s : CoordinatorState)
    (nodeId : String) (now : Nat)
    (hids : ∀ p ∈ s.nodes, p.2.info.id = p.1)
    (hnd : (s.nodes.map Prod.fst).Nodup)
    (node : ConnectedNode) (hn : mapGet s.nodes nodeId = some node)
    (htime : DEFAULT_CONFIG.HEARTBEAT_TIMEOUT < now - node.lastPing)
    (hnotoff : node.info.status ≠ NodeStatus.offline) :
    ∀ k t, mapGet (heartbeatSweepNode s nodeId now).1.tasks k = some t →
      t.currentNodeId = some nodeId →
      t.status ≠ TaskStatus.running ∧ t.status ≠ TaskStatus.migrating := by
  intro k t h hcn
  simp only [heartbeatSweepNode, hn, if_pos htime, if_pos hnotoff] at h
  have hidn : node.info.id = nodeId := hids _ (mapGet_mem hn)
  have hinv' : NodesInv nodeId (mapSet s.nodes nodeId
      { node with info := { node.info with status := NodeStatus.offline } }) :=
    nodesInv_mapSet hids hnd (fun _ _ h1 h2 => absurd h1 h2) _ hidn
      (fun _ => rfl)
  exact handleNodeFailure_inactive _ nodeId now hinv' k t h hcn

/-- C8, witness: the corrected statement evaluated at the fixture where the
timed-out node `A` holds `T8` and no replacement exists: the resulting task
(`T8` marked `failed`, still bound to `A`) is neither running nor
migrating. -/
theorem C8_witness :
    c8FailedTask.status ≠ TaskStatus.running ∧
    c8FailedTask.status ≠ TaskStatus.migrating :=
  C8_no_active_task_on_offline_node c8State "A" 10000 (by decide) (by decide)
    c8Node (by decide) (by decide) (by decide) "T8" c8FailedTask
    (by decide) (by decide)

end Migration
